import Mathlib

/-!
# Shield of Achilles — Page→Scene Compiler: shallow embedding

Shallow embedding of `src/build.py` (the scene-generation compiler):

* `parseBody` / `parse_legos_body` — the line loop of `parse_legos`
  (build.py lines 82–102): splits the descriptor at the `---` marker and
  keeps stripped digit-led body lines.
* `matchesPattern` / `selectLegos` / `parse_legos` — the candidate lookup of
  `parse_legos` (build.py lines 69–80): glob `scene_{index:02d}_*.legos`
  over a directory listing, taking `matches[0]` in listing order.
* `generate_cutouts` (build.py lines 104–134) — the fixed heuristic template.
* `codeProject` — the pixel projection of build.py lines 193–196, using
  Python `int()` truncation toward zero (`pyInt`).
* `generate_scene_json` (build.py lines 136–273) — the scene assembler.
  File I/O is factored out: the resolver's result arrives as an
  `Option (List String)` (`None` ↦ `none`), and Python's process-salted
  built-in `hash` on strings is an explicit oracle `pyhash : String → Int`.

Numeric literals such as `0.05` are modelled exactly as rationals; every
decimal constant in the source is exactly representable in binary floating
point up to an error far below the distance of any computed value from the
nearest integer or comparison boundary used here, so the rational model
agrees with the source's float evaluation on every value appearing in the
theorems below.

Spec-side (claim-side) definitions, for comparison with the code, are
`specSplitBody` (resolver splitting as the spec words it, parametrised by
the marker test), `selectLegosLex` (lexical candidate choice) and
`roundProject` (projection by rounding to nearest).
-/

namespace Shield

/-- Python `f"{n:0{width}d}"`: decimal digits of `n` left-padded with zeros. -/
def pad (width : Nat) (n : Nat) : String :=
  let s := toString n
  String.mk (List.replicate (width - s.length) '0') ++ s

/-- Python `int()` applied to an exact rational: truncation toward zero
(floor for nonnegative values, ceiling for negative ones). -/
def pyInt (q : Rat) : Int :=
  if 0 ≤ q then ⌊q⌋ else ⌈q⌉

/-- Python `str.strip()`: drop leading and trailing whitespace. -/
def pyStrip (s : String) : String :=
  String.mk (((s.data.dropWhile Char.isWhitespace).reverse.dropWhile
    Char.isWhitespace).reverse)

-- Scene defaults (build.py 33–34)
def SCENE_WIDTH : Nat := 1920
def SCENE_HEIGHT : Nat := 1080

/-! ## Geometry descriptor parsing (`parse_legos`, build.py 82–102) -/

/-- The body-line retention test of build.py line 99, applied to an already
stripped line: `stripped and (stripped[0].isdigit() or
stripped.startswith('0'))` — nonempty, and the first character is a digit
(the `startswith('0')` disjunct is subsumed by `isdigit`). -/
def keepLine (stripped : String) : Bool :=
  match stripped.data with
  | [] => false
  | c :: _ => c.isDigit || c = '0'

/-- The line loop of `parse_legos` (build.py 85–101).  `inSec` is the
`in_ldraw_section` flag: a line stripping to `---` turns it on and is
skipped; once it is on, stripped digit-led lines are collected in order. -/
def parseBody : List String → Bool → List String
  | [], _ => []
  | line :: rest, inSec =>
    let stripped := pyStrip line
    if stripped = "---" then
      parseBody rest true
    else if inSec && keepLine stripped then
      stripped :: parseBody rest inSec
    else
      parseBody rest inSec

/-- `parse_legos`'s text processing on a file already split into lines
(the `in_ldraw_section` flag starts out false). -/
def parse_legos_body (lines : List String) : List String :=
  parseBody lines false

/-- Spec-side splitter: drop everything up to and including the first line
satisfying `marker`, then keep the stripped digit-led lines of the rest.
With `marker l = (l == "---")` this is the resolver exactly as the spec
words it ("splitting at the first line equal exactly to `---`"); with
`marker l = (pyStrip l == "---")` it is the whitespace-insensitive variant
that the code implements. -/
def specSplitBody (marker : String → Bool) (lines : List String) : List String :=
  ((lines.dropWhile (fun l => !(marker l))).drop 1).filterMap
    (fun l => let s := pyStrip l; if keepLine s then some s else none)

/-! ## Candidate lookup (`parse_legos`, build.py 69–80) -/

/-- Glob `scene_{idx:02d}_*.legos` on a file name: the literal prefix
`scene_XX_`, then anything (possibly empty), then `.legos`. -/
def matchesPattern (idx : Nat) (name : String) : Bool :=
  let pre := ("scene_" ++ pad 2 idx ++ "_").data
  pre.isPrefixOf name.data && ".legos".data.isSuffixOf (name.data.drop pre.length)

/-- `matches = list(LEGOS_DIR.glob(pattern))` then `matches[0]` — the first
matching name in directory-listing order, `none` when nothing matches. -/
def selectLegos (listing : List String) (idx : Nat) : Option String :=
  (listing.filter (matchesPattern idx)).head?

/-- Lexicographic (byte-wise) ordering on file names. -/
def lexLe (a b : String) : Bool := go a.data b.data
  where go : List Char → List Char → Bool
  | [], _ => true
  | _ :: _, [] => false
  | c :: cs, d :: ds => if c = d then go cs ds else decide (c < d)

/-- Spec-side candidate choice: "the first in lexical order" among the
matching names. -/
def selectLegosLex (listing : List String) (idx : Nat) : Option String :=
  ((listing.filter (matchesPattern idx)).insertionSort
    (fun a b => lexLe a b = true)).head?

/-- `parse_legos` end to end: `none` when the legos directory is absent
(build.py 69) or nothing matches the glob (line 76); otherwise the parsed
body of the first match, `contents` giving each file's lines. -/
def parse_legos (dir : Option (List String)) (contents : String → List String)
    (idx : Nat) : Option (List String) :=
  match dir with
  | none => none
  | some listing =>
    match selectLegos listing idx with
    | none => none
    | some f => some (parse_legos_body (contents f))

/-! ## Heuristic cutouts (`generate_cutouts`, build.py 104–134) -/

structure Cutout where
  id : String
  x : Rat
  y : Rat
  w : Rat
  h : Rat
  depth : Int
  label : String
deriving DecidableEq, Repr

/-- `generate_cutouts(page_index)`: the fixed template — one title bar at
depth 200, then six grid regions at depth `60 + i * 30` (0-based `i`).
`page_index` is accepted but unused, exactly as in the source. -/
def generate_cutouts (_page_index : Nat) : List Cutout :=
  [ { id := "title-bar", x := 0.05, y := 0.02, w := 0.9, h := 0.12,
      depth := 200, label := "Title Region" },
    { id := "region-1", x := 0.02, y := 0.18, w := 0.28, h := 0.35,
      depth := 60 + 0 * 30, label := "Left Panel" },
    { id := "region-2", x := 0.32, y := 0.18, w := 0.36, h := 0.35,
      depth := 60 + 1 * 30, label := "Center Panel" },
    { id := "region-3", x := 0.70, y := 0.18, w := 0.28, h := 0.35,
      depth := 60 + 2 * 30, label := "Right Panel" },
    { id := "region-4", x := 0.02, y := 0.56, w := 0.45, h := 0.22,
      depth := 60 + 3 * 30, label := "Bottom Left" },
    { id := "region-5", x := 0.50, y := 0.56, w := 0.48, h := 0.22,
      depth := 60 + 4 * 30, label := "Bottom Right" },
    { id := "region-6", x := 0.35, y := 0.80, w := 0.30, h := 0.15,
      depth := 60 + 5 * 30, label := "Footer" } ]

/-- The title-bar region, first element of the heuristic template. -/
def titleBarRegion : Cutout :=
  { id := "title-bar", x := 0.05, y := 0.02, w := 0.9, h := 0.12,
    depth := 200, label := "Title Region" }

/-! ## Scene document model (`generate_scene_json`, build.py 136–273) -/

structure Material where
  transparent : Bool
  opacity : Rat
  emissive : Rat
  alphaMode : Option String := none
deriving DecidableEq, Repr

structure Animation where
  type : String
  amplitude : Int
  speed : Rat
deriving DecidableEq, Repr

structure CutoutRect where
  x : Rat
  y : Rat
  w : Rat
  h : Rat
deriving DecidableEq, Repr

structure Entity where
  id : String
  type : String
  texture : Option String := none
  fromImage : Option String := none
  cutout : Option CutoutRect := none
  position : Int × Int × Int
  size : Int × Int
  material : Material
  animation : Option Animation := none
deriving DecidableEq, Repr

structure SnapPoint where
  name : String
  cameraPos : Int × Int × Int
  target : Int × Int × Int
deriving DecidableEq, Repr, Inhabited

structure TourStop where
  snapPoint : String
  seconds : Nat
deriving DecidableEq, Repr

structure Camera where
  type : String
  position : Int × Int × Int
  target : Int × Int × Int
  fov : Nat
deriving DecidableEq, Repr

structure Fog where
  enabled : Bool
  color : String
  near : Nat
  far : Nat
deriving DecidableEq, Repr

structure SceneEnvironment where
  background : String
  fog : Fog
deriving DecidableEq, Repr

structure Light where
  type : String
  position : Option (Int × Int × Int) := none
  intensity : Rat
  color : Option String := none
  skyColor : Option String := none
  groundColor : Option String := none
deriving DecidableEq, Repr

structure TextureAsset where
  id : String
  src : String
deriving DecidableEq, Repr

structure Assets where
  textures : List TextureAsset
  ldraw : List String
deriving DecidableEq, Repr

structure SceneUnits where
  system : String
  scale : Nat
deriving DecidableEq, Repr

structure Navigation where
  snapPoints : List SnapPoint
  tour : List TourStop
deriving DecidableEq, Repr

structure Scene where
  id : String
  title : String
  sourceImage : String
  units : SceneUnits
  camera : Camera
  environment : SceneEnvironment
  lights : List Light
  assets : Assets
  entities : List Entity
  navigation : Navigation
deriving DecidableEq, Repr

/-- The `page_info` dict produced by `copy_pages` (build.py 56–60). -/
structure PageInfo where
  index : Nat
  original : String
  dest : String
deriving DecidableEq, Repr

/-- The projection of build.py lines 193–196, Python `int()` truncation of
the centred pixel coordinates: returns `(position, size)` exactly as the
generated entity carries them. -/
def codeProject (c : Cutout) : (Int × Int × Int) × (Int × Int) :=
  let w := pyInt (c.w * (SCENE_WIDTH : Rat))
  let h := pyInt (c.h * (SCENE_HEIGHT : Rat))
  let x := pyInt ((c.x + c.w / 2 - 0.5) * (SCENE_WIDTH : Rat))
  let y := pyInt ((0.5 - c.y - c.h / 2) * (SCENE_HEIGHT : Rat))
  ((x, y, c.depth), (w, h))

/-- Spec-side projection: the same formulas with rounding to the nearest
integer, as §4.3 of the spec words it (`round` instead of `int`). -/
def roundProject (c : Cutout) : (Int × Int × Int) × (Int × Int) :=
  ((round ((c.x + c.w / 2 - 0.5) * (SCENE_WIDTH : Rat)),
    round ((0.5 - c.y - c.h / 2) * (SCENE_HEIGHT : Rat)),
    c.depth),
   (round (c.w * (SCENE_WIDTH : Rat)), round (c.h * (SCENE_HEIGHT : Rat))))

/-- The background plane entity appended first in both modes
(build.py 147–159). -/
def backgroundEntity : Entity :=
  { id := "background", type := "plane", texture := some "page",
    position := (0, 0, 0), size := ((SCENE_WIDTH : Int), (SCENE_HEIGHT : Int)),
    material := { transparent := false, opacity := 1.0, emissive := 0.02 } }

/-- The single contextual title cutout of geometry mode (build.py 166–174). -/
def titleContextEntity : Entity :=
  { id := "title-context", type := "cutoutPlane", fromImage := some "page",
    cutout := some { x := 0.05, y := 0.02, w := 0.9, h := 0.12 },
    position := (0, 450, 100), size := (1728, 129),
    material := { transparent := true, opacity := 0.9, emissive := 0.1 } }

/-- One heuristic cutout entity (build.py 192–221): projected position and
size, blended material, and a float animation whose speed is
`0.5 + (hash(id) % 10) / 20` with Python's process-salted string hash. -/
def cutoutEntity (pyhash : String → Int) (c : Cutout) : Entity :=
  { id := c.id, type := "cutoutPlane", fromImage := some "page",
    cutout := some { x := c.x, y := c.y, w := c.w, h := c.h },
    position := (codeProject c).1, size := (codeProject c).2,
    material := { transparent := true, alphaMode := some "blend",
                  opacity := 0.95, emissive := 0.08 },
    animation := some { type := "float", amplitude := 3,
                        speed := 0.5 + ((pyhash c.id % 10 : Int) : Rat) / 20 } }

/-- Geometry-mode snap points (build.py 177–182), in declaration order. -/
def geometrySnapPoints : List SnapPoint :=
  [ { name := "Overview", cameraPos := (0, 300, 800), target := (0, 0, 0) },
    { name := "Top Down", cameraPos := (0, 800, 0), target := (0, 0, 0) },
    { name := "Triage (Left)", cameraPos := (-400, 200, 400), target := (-200, 0, 0) },
    { name := "Output (Right)", cameraPos := (400, 200, 400), target := (200, 0, 0) } ]

/-- Heuristic-mode snap points (build.py 223–229), in declaration order. -/
def heuristicSnapPoints : List SnapPoint :=
  [ { name := "Front View", cameraPos := (0, 0, 1200), target := (0, 0, 0) },
    { name := "Top Down", cameraPos := (0, 800, 600), target := (0, 0, 0) },
    { name := "Left Angle", cameraPos := (-600, 200, 1000), target := (0, 0, 0) },
    { name := "Right Angle", cameraPos := (600, 200, 1000), target := (0, 0, 0) },
    { name := "Close Up", cameraPos := (0, 0, 600), target := (0, 0, 100) } ]

/-- The fixed 4-light rig (build.py 254–259). -/
def sceneLights : List Light :=
  [ { type := "hemisphere", skyColor := some "#c9a227",
      groundColor := some "#050505", intensity := 0.5 },
    { type := "directional", position := some (300, 800, 500),
      intensity := 1.2, color := some "#ffffff" },
    { type := "point", position := some (-400, 300, 500),
      intensity := 0.8, color := some "#c9a227" },
    { type := "point", position := some (400, -200, 500),
      intensity := 0.4, color := some "#2dd4bf" } ]

/-- Environment block (build.py 245–253). -/
def sceneEnvironmentBlock : SceneEnvironment :=
  { background := "#050505",
    fog := { enabled := true, color := "#050505", near := 800, far := 3000 } }

/-- Which branch of `if ldraw_data and len(ldraw_data) > 0` (build.py 161)
is taken: geometry mode iff the resolver returned a non-empty line list. -/
inductive Mode
  | geometry
  | heuristic
deriving DecidableEq, Repr

def sceneMode (ldraw_data : Option (List String)) : Mode :=
  match ldraw_data with
  | some l => if l.isEmpty then .heuristic else .geometry
  | none => .heuristic

/-- `generate_scene_json` (build.py 136–273) with the resolver's result
(`parse_legos(idx)`) passed in as `ldraw_data` and Python's string `hash`
as the oracle `pyhash`. -/
def generate_scene_json (pyhash : String → Int) (page : PageInfo)
    (ldraw_data : Option (List String)) : Scene :=
  let idx := page.index
  -- `if ldraw_data and len(ldraw_data) > 0:` (build.py 161)
  let geo : Bool := match ldraw_data with
    | some l => !l.isEmpty
    | none => false
  -- heuristic branch re-binds `ldraw_data = []` (build.py 189)
  let ldraw : List String := if geo then ldraw_data.getD [] else []
  let entities : List Entity :=
    if geo then [backgroundEntity, titleContextEntity]
    else backgroundEntity :: (generate_cutouts idx).map (cutoutEntity pyhash)
  let snap_points : List SnapPoint :=
    if geo then geometrySnapPoints else heuristicSnapPoints
  { id := pad 4 idx,
    title := "Page " ++ toString idx ++ ": " ++ page.original.replace ".png" "",
    sourceImage := "../pages/" ++ page.dest,
    units := { system := "pixels", scale := 1 },
    camera := { type := "perspective",
                position := snap_points.head!.cameraPos,
                target := snap_points.head!.target, fov := 50 },
    environment := sceneEnvironmentBlock,
    lights := sceneLights,
    assets := { textures := [{ id := "page", src := "../pages/" ++ page.dest }],
                ldraw := ldraw },
    entities := entities,
    navigation := { snapPoints := snap_points,
                    tour := snap_points.map
                      (fun sp => { snapPoint := sp.name, seconds := 3 }) } }

end Shield

/-! ## Shared lemmas -/

namespace Shield

/-- The heuristic template ignores its page index (build.py 104–134 never
reads `page_index`). -/
theorem generate_cutouts_const (n : Nat) : generate_cutouts n = generate_cutouts 0 :=
  rfl

/-- Entity list of a heuristic-mode scene: the background plane followed by
one cutout entity per template region. -/
theorem entities_heuristic (pyhash : String → Int) (page : PageInfo) :
    (generate_scene_json pyhash page none).entities
      = backgroundEntity :: (generate_cutouts page.index).map (cutoutEntity pyhash) :=
  rfl

end Shield

/-! ## Claim theorems -/

namespace Shield

/-- C1: for every page exactly one of geometry/heuristic mode is selected
(the single branch at build.py 161), the produced scene's `assets.ldraw` is
non-empty iff the mode is geometry, and a resolver result of zero retained
lines (`some []`) produces a scene identical to an absent descriptor
(`none`). -/
theorem mode_partition_ldraw_iff (pyhash : String → Int) (page : PageInfo)
    (d : Option (List String)) :
    ((generate_scene_json pyhash page d).assets.ldraw ≠ [] ↔
      sceneMode d = Mode.geometry)
    ∧ generate_scene_json pyhash page (some []) =
        generate_scene_json pyhash page none := by
  refine ⟨?_, rfl⟩
  rcases d with _ | (_ | ⟨a, as⟩)
  · exact iff_of_false (fun h => h rfl) (by decide)
  · exact iff_of_false (fun h => h rfl) (by decide)
  · exact iff_of_true (List.cons_ne_nil a as) rfl

/-- C1 witness: the equivalence instantiated at a concrete page with an
absent descriptor. -/
theorem mode_partition_ldraw_iff_witness :
    ((generate_scene_json (fun _ => 0) ⟨1, "p.png", "0001.png"⟩ none).assets.ldraw ≠ []
      ↔ sceneMode none = Mode.geometry)
    ∧ generate_scene_json (fun _ => 0) ⟨1, "p.png", "0001.png"⟩ (some []) =
        generate_scene_json (fun _ => 0) ⟨1, "p.png", "0001.png"⟩ none :=
  mode_partition_ldraw_iff (fun _ => 0) ⟨1, "p.png", "0001.png"⟩ none

/-- C2 counterexample: it is not true that the title bar's depth 200
exceeds the depth of every other region of the heuristic template — the
sixth content panel (`region-6`, the footer) has depth 60 + 5·30 = 210. -/
theorem title_depth_not_maximal :
    ¬ (∀ c ∈ generate_cutouts 1, c.id ≠ "title-bar" → c.depth < 200) := by
  intro hall
  have hd := hall
    { id := "region-6", x := 0.35, y := 0.80, w := 0.30, h := 0.15,
      depth := 60 + 5 * 30, label := "Footer" }
    (List.Mem.tail _ (List.Mem.tail _ (List.Mem.tail _ (List.Mem.tail _
      (List.Mem.tail _ (List.Mem.tail _ (List.Mem.head _)))))))
    (by decide)
  norm_num at hd

/-- C2 amended: the template's depths are 200 (title bar) then
60,90,120,150,180,210; the title bar's depth 200 exceeds the depth of the
first five content panels but not of the sixth (`region-6`, depth 210). -/
theorem title_depth_amended (n : Nat) :
    (generate_cutouts n).map Cutout.depth = [200, 60, 90, 120, 150, 180, 210]
    ∧ (∀ c ∈ generate_cutouts n,
        c.id ≠ "title-bar" → c.id ≠ "region-6" → c.depth < 200)
    ∧ (∃ c ∈ generate_cutouts n, c.id = "region-6" ∧ 200 < c.depth) := by
  rw [generate_cutouts_const]
  refine ⟨by decide, by decide, by decide⟩

/-- C2 amended witness: instantiated at page index 1; the depth of the
footer region exceeds the title bar's 200. -/
theorem title_depth_amended_witness :
    (generate_cutouts 1).map Cutout.depth = [200, 60, 90, 120, 150, 180, 210]
    ∧ (∀ c ∈ generate_cutouts 1,
        c.id ≠ "title-bar" → c.id ≠ "region-6" → c.depth < 200)
    ∧ (∃ c ∈ generate_cutouts 1, c.id = "region-6" ∧ 200 < c.depth) :=
  title_depth_amended 1

/-- C9: projecting the full-canvas region `x=0, y=0, w=1, h=1` at any depth
yields position `(0, 0, depth)` and size `(1920, 1080)`. -/
theorem project_full_canvas (depth : Int) :
    codeProject { id := "full", x := 0, y := 0, w := 1, h := 1,
                  depth := depth, label := "Full" }
      = ((0, 0, depth), (1920, 1080)) := by
  norm_num [codeProject, pyInt, SCENE_WIDTH, SCENE_HEIGHT]

/-- C10: every region of the heuristic template lies inside the unit
square, so every projected cutout plane fits the background's extent. -/
theorem cutouts_in_unit_square (n : Nat) :
    ∀ c ∈ generate_cutouts n,
      0 ≤ c.x ∧ 0 ≤ c.y ∧ c.x + c.w ≤ 1 ∧ c.y + c.h ≤ 1 := by
  rw [generate_cutouts_const]
  intro c hc
  fin_cases hc <;> norm_num [generate_cutouts]

/-- C10 witness: the title-bar region instantiates the invariant. -/
theorem cutouts_in_unit_square_witness :
    0 ≤ titleBarRegion.x ∧ 0 ≤ titleBarRegion.y
    ∧ titleBarRegion.x + titleBarRegion.w ≤ 1
    ∧ titleBarRegion.y + titleBarRegion.h ≤ 1 :=
  cutouts_in_unit_square 1 titleBarRegion (List.Mem.head _)

end Shield

namespace Shield

/-- C3 counterexample: on the title-bar region the code's projection
truncates `0.12 * 1080 = 129.6` to 129, while the claimed round-to-nearest
formula yields 130. -/
theorem project_truncates_not_rounds :
    codeProject titleBarRegion ≠ roundProject titleBarRegion
    ∧ (codeProject titleBarRegion).2.2 = 129
    ∧ (roundProject titleBarRegion).2.2 = 130 := by
  refine ⟨?_, ?_, ?_⟩
  · intro h
    have h2 := congrArg (fun p => p.2.2) h
    norm_num [codeProject, roundProject, pyInt, titleBarRegion, round_eq,
      SCENE_WIDTH, SCENE_HEIGHT] at h2
  · norm_num [codeProject, pyInt, titleBarRegion, SCENE_WIDTH, SCENE_HEIGHT]
  · norm_num [roundProject, titleBarRegion, round_eq, SCENE_WIDTH, SCENE_HEIGHT]

/-- C3 amended: every cutout entity of a heuristic scene carries the pixel
position and size given by the source's formulas with Python `int()`
truncation toward zero (not rounding), and depth used directly as z. -/
theorem projection_formula_amended (pyhash : String → Int) (page : PageInfo)
    (c : Cutout) (hc : c ∈ generate_cutouts page.index) :
    ∃ e ∈ (generate_scene_json pyhash page none).entities,
      e.id = c.id
      ∧ e.position = (pyInt ((c.x + c.w / 2 - 0.5) * (SCENE_WIDTH : Rat)),
                      pyInt ((0.5 - c.y - c.h / 2) * (SCENE_HEIGHT : Rat)),
                      c.depth)
      ∧ e.size = (pyInt (c.w * (SCENE_WIDTH : Rat)),
                  pyInt (c.h * (SCENE_HEIGHT : Rat))) := by
  refine ⟨cutoutEntity pyhash c, ?_, rfl, rfl, rfl⟩
  rw [entities_heuristic]
  exact List.mem_cons_of_mem _ (List.mem_map_of_mem _ hc)

/-- C3 amended witness: the title-bar region of page 1. -/
theorem projection_formula_amended_witness :
    ∃ e ∈ (generate_scene_json (fun _ => 0) ⟨1, "p.png", "0001.png"⟩ none).entities,
      e.id = titleBarRegion.id
      ∧ e.position = (pyInt ((titleBarRegion.x + titleBarRegion.w / 2 - 0.5) * (SCENE_WIDTH : Rat)),
                      pyInt ((0.5 - titleBarRegion.y - titleBarRegion.h / 2) * (SCENE_HEIGHT : Rat)),
                      titleBarRegion.depth)
      ∧ e.size = (pyInt (titleBarRegion.w * (SCENE_WIDTH : Rat)),
                  pyInt (titleBarRegion.h * (SCENE_HEIGHT : Rat))) :=
  projection_formula_amended (fun _ => 0) ⟨1, "p.png", "0001.png"⟩ titleBarRegion
    (List.Mem.head _)

/-- The retention test rejects a bare `---` marker line. -/
theorem keepLine_marker : keepLine "---" = false := by decide

/-- Once inside the geometry section, the loop keeps exactly the stripped
digit-led lines, in order. -/
theorem parseBody_insec (lines : List String) :
    parseBody lines true = lines.filterMap
      (fun l => if keepLine (pyStrip l) then some (pyStrip l) else none) := by
  induction lines with
  | nil => rfl
  | cons line rest ih =>
    simp only [parseBody, List.filterMap_cons]
    by_cases h : pyStrip line = "---"
    · simp [h, keepLine_marker, ih]
    · by_cases hk : keepLine (pyStrip line)
      · simp [h, hk, ih]
      · simp [h, hk, ih]

/-- The code's resolver splitting equals the spec-side splitter whose
marker test is whitespace-insensitive (`strip(line) == "---"`). -/
theorem parse_legos_body_eq_spec (lines : List String) :
    parse_legos_body lines = specSplitBody (fun l => pyStrip l == "---") lines := by
  unfold parse_legos_body
  induction lines with
  | nil => rfl
  | cons line rest ih =>
    by_cases h : pyStrip line = "---"
    · have hb : (pyStrip line == "---") = true := by simp [h]
      simp only [parseBody, specSplitBody, List.dropWhile_cons, hb, Bool.not_true,
        if_pos h, Bool.false_eq_true, if_false, List.drop_succ_cons, List.drop_zero]
      exact parseBody_insec rest
    · have hb : (pyStrip line == "---") = false := by simp [h]
      simp only [parseBody, specSplitBody, List.dropWhile_cons, hb, Bool.not_false,
        if_neg h, Bool.false_and, if_true, Bool.false_eq_true, if_false] at ih ⊢
      exact ih

/-- C4 counterexample: the code's marker test strips the line first, so on
`["1 A", " --- ", "5 B", "---", "9 C"]` it opens the geometry section at
the padded `" --- "` line and returns `["5 B", "9 C"]`, whereas splitting
at the first line equal exactly to `---` (as claimed) would return only
`["9 C"]` — the code treats a line before the first exact marker as
geometry. -/
theorem marker_not_exact :
    parse_legos_body ["1 A", " --- ", "5 B", "---", "9 C"] = ["5 B", "9 C"]
    ∧ specSplitBody (fun l => l == "---") ["1 A", " --- ", "5 B", "---", "9 C"]
        = ["9 C"] :=
  ⟨by decide, by decide⟩

/-- C4 amended: the resolver splits at the first line that *strips* to
`---` (whitespace-insensitive), never treats lines before that marker as
geometry, and within the body retains exactly the stripped digit-led lines
in original order; on the spec's example descriptor it returns exactly the
two digit-led lines. -/
theorem resolver_split_amended :
    (∀ lines : List String,
      parse_legos_body lines = specSplitBody (fun l => pyStrip l == "---") lines)
    ∧ parse_legos_body ["meta: 1", "---", "1 16 0 0 0 ...", "not-geometry", "2 16 ..."]
        = ["1 16 0 0 0 ...", "2 16 ..."] :=
  ⟨parse_legos_body_eq_spec, by decide⟩

end Shield

namespace Shield

/-- C5 counterexample: with two matching files listed in non-lexical
directory order, `matches[0]` is the listing-first name
`scene_03_b.legos`, not the lexical-first `scene_03_a.legos`. -/
theorem select_not_lexical :
    selectLegos ["scene_03_b.legos", "scene_03_a.legos"] 3 = some "scene_03_b.legos"
    ∧ selectLegosLex ["scene_03_b.legos", "scene_03_a.legos"] 3 = some "scene_03_a.legos"
    ∧ selectLegos ["scene_03_b.legos", "scene_03_a.legos"] 3
        ≠ selectLegosLex ["scene_03_b.legos", "scene_03_a.legos"] 3 :=
  ⟨by decide, by decide, by decide⟩

/-- C5 amended: the resolver selects the first match in directory-listing
order; that coincides with the first in lexical order exactly when the
listing is lexically sorted. -/
theorem select_first_in_listing_order (listing : List String) (idx : Nat)
    (hsorted : listing.Pairwise (fun a b => lexLe a b = true)) :
    selectLegos listing idx = selectLegosLex listing idx := by
  unfold selectLegos selectLegosLex
  rw [List.Sorted.insertionSort_eq (hsorted.filter (matchesPattern idx))]

/-- C5 amended witness: a lexically sorted listing. -/
theorem select_first_in_listing_order_witness :
    selectLegos ["scene_03_a.legos", "scene_03_b.legos"] 3
      = selectLegosLex ["scene_03_a.legos", "scene_03_b.legos"] 3 :=
  select_first_in_listing_order ["scene_03_a.legos", "scene_03_b.legos"] 3 (by decide)

/-- C6 counterexample: the heuristic tour is built by mapping over the
snap-point list, so it visits front → top-down → left → right → close-up —
not the claimed front → left → close-up → right → top-down order. -/
theorem tour_order_is_list_order_cex :
    ((generate_scene_json (fun _ => 0) ⟨3, "p.png", "0003.png"⟩ none).navigation.tour.map
        TourStop.snapPoint
      = ["Front View", "Top Down", "Left Angle", "Right Angle", "Close Up"])
    ∧ ((generate_scene_json (fun _ => 0) ⟨3, "p.png", "0003.png"⟩ none).navigation.tour.map
        TourStop.snapPoint
      ≠ ["Front View", "Left Angle", "Close Up", "Right Angle", "Top Down"]) :=
  ⟨rfl, by decide⟩

/-- C6 amended: in both modes the tour order is exactly snap-point
declaration order; for heuristic mode that is Front View, Top Down,
Left Angle, Right Angle, Close Up, and for geometry mode Overview,
Top Down, Triage (Left), Output (Right). -/
theorem tour_order_amended (pyhash : String → Int) (page : PageInfo)
    (d : Option (List String)) :
    ((generate_scene_json pyhash page d).navigation.tour.map TourStop.snapPoint
      = (generate_scene_json pyhash page d).navigation.snapPoints.map SnapPoint.name)
    ∧ (sceneMode d = Mode.heuristic →
        (generate_scene_json pyhash page d).navigation.tour.map TourStop.snapPoint
          = ["Front View", "Top Down", "Left Angle", "Right Angle", "Close Up"])
    ∧ (sceneMode d = Mode.geometry →
        (generate_scene_json pyhash page d).navigation.tour.map TourStop.snapPoint
          = ["Overview", "Top Down", "Triage (Left)", "Output (Right)"]) := by
  rcases d with _ | (_ | ⟨a, as⟩)
  · exact ⟨rfl, fun _ => rfl, fun hg => Mode.noConfusion hg⟩
  · exact ⟨rfl, fun _ => rfl, fun hg => Mode.noConfusion hg⟩
  · exact ⟨rfl, fun hh => Mode.noConfusion hh, fun _ => rfl⟩

/-- C6 amended witness: the heuristic tour order of page 1. -/
theorem tour_order_amended_witness :
    (generate_scene_json (fun _ => 0) ⟨1, "p.png", "0001.png"⟩ none).navigation.tour.map
        TourStop.snapPoint
      = ["Front View", "Top Down", "Left Angle", "Right Angle", "Close Up"] :=
  (tour_order_amended (fun _ => 0) ⟨1, "p.png", "0001.png"⟩ none).2.1 rfl

/-- C7: when no listed file matches the index-3 glob the resolver returns
`none`, and the heuristic scene carries `assets.ldraw = []`, exactly 7
cutout-plane entities and exactly one background entity. -/
theorem fallback_scene_shape (listing : List String) (contents : String → List String)
    (pyhash : String → Int) (page : PageInfo)
    (hnone : ∀ n ∈ listing, matchesPattern 3 n = false) :
    parse_legos (some listing) contents 3 = none
    ∧ (generate_scene_json pyhash page none).assets.ldraw = []
    ∧ ((generate_scene_json pyhash page none).entities.filter
        (fun e => e.type == "cutoutPlane")).length = 7
    ∧ ((generate_scene_json pyhash page none).entities.filter
        (fun e => e.id == "background")).length = 1 := by
  refine ⟨?_, rfl, rfl, rfl⟩
  have hfil : listing.filter (matchesPattern 3) = [] := by
    rw [List.filter_eq_nil_iff]
    intro a ha
    simp [hnone a ha]
  simp [parse_legos, selectLegos, hfil]

/-- C7 witness: a listing with no matching candidate for index 3. -/
theorem fallback_scene_shape_witness :
    parse_legos (some ["notes.txt", "scene_04_a.legos"]) (fun _ => []) 3 = none
    ∧ (generate_scene_json (fun _ => 0) ⟨3, "p.png", "0003.png"⟩ none).assets.ldraw = []
    ∧ ((generate_scene_json (fun _ => 0) ⟨3, "p.png", "0003.png"⟩ none).entities.filter
        (fun e => e.type == "cutoutPlane")).length = 7
    ∧ ((generate_scene_json (fun _ => 0) ⟨3, "p.png", "0003.png"⟩ none).entities.filter
        (fun e => e.id == "background")).length = 1 :=
  fallback_scene_shape ["notes.txt", "scene_04_a.legos"] (fun _ => [])
    (fun _ => 0) ⟨3, "p.png", "0003.png"⟩ (by decide)

/-- C8 (code bug): the heuristic float-animation speed is
`0.5 + (hash(id) % 10) / 20` with Python's process-salted string hash, so
the generated scene depends on the hash oracle: two runs whose salts hash
`"title-bar"` to 0 and 1 give speeds 1/2 and 11/20 and different scene
documents for identical inputs. -/
theorem scene_depends_on_hash_salt :
    (cutoutEntity (fun _ => 0) titleBarRegion).animation.map Animation.speed
      = some (1 / 2)
    ∧ (cutoutEntity (fun _ => 1) titleBarRegion).animation.map Animation.speed
      = some (11 / 20)
    ∧ generate_scene_json (fun _ => 0) ⟨1, "p.png", "0001.png"⟩ none
        ≠ generate_scene_json (fun _ => 1) ⟨1, "p.png", "0001.png"⟩ none := by
  refine ⟨?_, ?_, ?_⟩
  · norm_num [cutoutEntity]
  · norm_num [cutoutEntity]
  · intro h
    have h2 : ((generate_scene_json (fun _ => 0) ⟨1, "p.png", "0001.png"⟩ none).entities[1]?).map
        (fun e => e.animation.map Animation.speed)
        = ((generate_scene_json (fun _ => 1) ⟨1, "p.png", "0001.png"⟩ none).entities[1]?).map
        (fun e => e.animation.map Animation.speed) := by rw [h]
    have e1 : ((generate_scene_json (fun _ => 0) ⟨1, "p.png", "0001.png"⟩ none).entities[1]?).map
        (fun e => e.animation.map Animation.speed)
        = some (some (0.5 + (((0 : Int) % 10 : Int) : Rat) / 20)) := rfl
    have e2 : ((generate_scene_json (fun _ => 1) ⟨1, "p.png", "0001.png"⟩ none).entities[1]?).map
        (fun e => e.animation.map Animation.speed)
        = some (some (0.5 + (((1 : Int) % 10 : Int) : Rat) / 20)) := rfl
    rw [e1, e2] at h2
    simp only [Option.some.injEq] at h2
    norm_num at h2

end Shield
